import Mathlib

/-!
Verification of the reddit persona generator (persona_generator.py).

The program is a single-shot batch utility: it reads a profile URL from
standard input, extracts a username, fetches the recent posts and
comments of the user from the platform read API, builds a templated completion prompt
(with a hard 15000-character truncation on the serialized content), calls a
completion API, and writes the returned text to a file named
"<username>_persona.txt".

Shallow embedding conventions:
- Python strings are sequences of code points, embedded as `List Char`
  (abbreviated `Str`); `str s` injects a Lean string literal.
- Side effects (prints to stdout, network calls, file writes) are recorded
  in an event trace; `sys.exit(n)` is the `Result.exited n` outcome, normal
  return is `Result.ok`.
- The two external services (the platform read API and the completion API)
  are oracles supplied as parameters: the read API backend carries the
  upstream listings plus a behavior flag saying whether (and where) the
  fetch iteration raises; the completion backend either succeeds with a
  response function or raises one of the two exception classes the code
  distinguishes.
-/

namespace RedditPersona

/-- Python strings as lists of code points. -/
abbrev Str := List Char

/-- Inject a Lean string literal as a `Str`. -/
def str (s : String) : Str := s.data

/-- Decimal rendering of a natural number, for f-string interpolation of
`len(...)` values. -/
def natStr (n : Nat) : Str := (Nat.repr n).data

/-- The four environment variables read at module load (lines 11-14).
`none` models an unset variable (`os.getenv` returning `None`). -/
structure Config where
  REDDIT_CLIENT_ID : Option Str
  REDDIT_CLIENT_SECRET : Option Str
  REDDIT_USER_AGENT : Option Str
  OPENAI_API_KEY : Option Str

/-- Python truthiness of an `os.getenv` result: `None` and the empty string
are falsy, any non-empty string is truthy. -/
def truthy : Option Str → Bool
  | none => false
  | some s => !s.isEmpty

/-- Observable effects of a run: a line printed to stdout, a call to the
platform read API, a call to the completion API (carrying the full prompt),
or a file write (carrying the file name and contents). -/
inductive Event where
  | print (line : Str)
  | redditCall (user : Str)
  | openaiCall (prompt : Str)
  | fileWrite (filename : Str) (contents : Str)
deriving DecidableEq

/-- Outcome of a (piece of the) program: either the process terminated via
`sys.exit code`, or the function returned a value; both carry the event
trace produced along the way. -/
inductive Result (α : Type) where
  | exited (code : Nat) (trace : List Event)
  | ok (val : α) (trace : List Event)
deriving DecidableEq

/-- The trace component of a `Result`. -/
def Result.trace {α : Type} : Result α → List Event
  | .exited _ t => t
  | .ok _ t => t

/-- The returned value of a `Result`, when the code returned rather than
exited. -/
def Result.returns {α : Type} : Result α → Option α
  | .exited _ _ => none
  | .ok v _ => some v

/-- The exit status of a `Result`, when the code called `sys.exit`. -/
def Result.exitCode {α : Type} : Result α → Option Nat
  | .exited c _ => some c
  | .ok _ _ => none

/-- A raw submission as delivered by the read API: the praw fields the code
reads (lines 46-52). -/
structure RawSubmission where
  id : Str
  permalink : Str
  title : Str
  selftext : Str
  is_self : Bool
deriving DecidableEq

/-- A raw comment as delivered by the read API: the praw fields the code
reads (lines 56-61). -/
structure RawComment where
  id : Str
  permalink : Str
  body : Str
deriving DecidableEq

/-- The post dict built at lines 47-52. -/
structure Post where
  id : Str
  url : Str
  title : Str
  selftext : Str
deriving DecidableEq

/-- The comment dict built at lines 57-61. -/
structure Comment where
  id : Str
  url : Str
  body : Str
deriving DecidableEq

/-- Where, if anywhere, the fetch loop of `get_user_data` raises: never, in
the submissions iteration, or in the comments iteration (after the posts
were already accumulated, which the `return [], []` then discards). The
message is the stringified exception. -/
inductive FetchBehavior where
  | success
  | raiseDuringPosts (msg : Str)
  | raiseDuringComments (msg : Str)
deriving DecidableEq

/-- Oracle for the platform read API: the upstream listings (newest first)
for the requested user, and the behavior of the fetch iteration. -/
structure RedditBackend where
  submissions : List RawSubmission
  comments : List RawComment
  behavior : FetchBehavior

/-- Oracle for the completion API: success with a prompt-to-text response
function, an `openai.error.OpenAIError` (line 142), or any other exception
(line 146). -/
inductive LLMBackend where
  | succeeds (respond : Str → Str)
  | openAIError (msg : Str)
  | otherError (msg : Str)

/-- The literal part of the regex at line 22. -/
def user_pattern : Str := str "reddit.com/user/"

/-- Does the regex match at the head of `s`? Matches iff `s` starts with
the literal followed by at least one non-slash character; the capture group
is the maximal run of non-slash characters after the literal. -/
def matchAt (s : Str) : Option Str :=
  if user_pattern.isPrefixOf s then
    let name := (s.drop user_pattern.length).takeWhile (fun c => c != '/')
    if name.isEmpty then none else some name
  else none

/-- Leftmost-match search, as `re.search`: try each start position from the
left, return the first capture. -/
def searchFrom : Str → Option Str
  | [] => none
  | c :: rest =>
    match matchAt (c :: rest) with
    | some name => some name
    | none => searchFrom rest

/-- `extract_username` (lines 18-23): the regex search for
reddit.com/user/ followed by a captured run of non-slash characters;
`none` is the Python `None` sentinel. Pure, no side effects. -/
def extract_username (profile_url : Str) : Option Str :=
  searchFrom profile_url

/-- The post dict construction at lines 47-52: id, full permalink URL,
title, and selftext with the placeholder substituted for link posts. -/
def mkPost (s : RawSubmission) : Post :=
  { id := s.id
    url := str "https://www.reddit.com" ++ s.permalink
    title := s.title
    selftext := if s.is_self then s.selftext else str "[Link Post]" }

/-- The comment dict construction at lines 57-61. -/
def mkComment (c : RawComment) : Comment :=
  { id := c.id
    url := str "https://www.reddit.com" ++ c.permalink
    body := c.body }

/-- The two diagnostic prints of the fetch exception handler (lines 65-66). -/
def fetchErrorPrints (msg : Str) : List Event :=
  [.print (str "An error occurred while fetching Reddit data: " ++ msg),
   .print (str "This might be due to an invalid username, API rate limits, or incorrect credentials.")]

/-- The print at line 53. -/
def fetchedPostsMsg (n : Nat) : Str :=
  str "Fetched " ++ natStr n ++ str " posts."

/-- The print at line 62. -/
def fetchedCommentsMsg (n : Nat) : Str :=
  str "Fetched " ++ natStr n ++ str " comments."

/-- The credentials diagnostic at line 31. -/
def credsErrorMsg : Str :=
  str "Error: Reddit API credentials not found in environment variables. Please set them in your .env file."

/-- `get_user_data` (lines 25-69). Checks the three platform credentials
for truthiness and exits 1 when any is falsy (lines 30-32, before any
network call). Otherwise iterates the newest `limit` submissions and then
the newest `limit` comments (each iteration is a network call); an
exception anywhere in the try block discards everything accumulated and
returns two empty lists (lines 64-67). -/
def get_user_data (cfg : Config) (api : RedditBackend) (username : Str)
    (limit : Nat := 50) : Result (List Post × List Comment) :=
  if !(truthy cfg.REDDIT_CLIENT_ID && truthy cfg.REDDIT_CLIENT_SECRET
        && truthy cfg.REDDIT_USER_AGENT) then
    .exited 1 [.print credsErrorMsg]
  else
    let t0 : List Event :=
      [.print (str "Attempting to fetch data for u/" ++ username ++ str "...")]
    match api.behavior with
    | .raiseDuringPosts msg =>
        .ok ([], []) (t0 ++ [.redditCall username] ++ fetchErrorPrints msg)
    | .raiseDuringComments msg =>
        let posts := (api.submissions.take limit).map mkPost
        .ok ([], [])
          (t0 ++ [.redditCall username, .print (fetchedPostsMsg posts.length),
                  .redditCall username] ++ fetchErrorPrints msg)
    | .success =>
        let posts := (api.submissions.take limit).map mkPost
        let comments := (api.comments.take limit).map mkComment
        .ok (posts, comments)
          (t0 ++ [.redditCall username, .print (fetchedPostsMsg posts.length),
                  .redditCall username, .print (fetchedCommentsMsg comments.length)])

/-- The fixed instructional prompt template (lines 80-100), a Python
triple-quoted string: the text between the quotes, continuation lines
keeping their four-space indentation, ending in a newline plus four
spaces before the closing quotes. -/
def prompt_template : Str := str
  ("Based on the following Reddit posts and comments, generate a detailed user persona.\n" ++
   "    The persona should include categories such as:\n" ++
   "    - **Interests**: What are their hobbies, passions, and topics they engage with?\n" ++
   "    - **Values**: What principles or beliefs seem important to them?\n" ++
   "    - **Tone/Communication Style**: How do they typically express themselves (e.g., formal, casual, humorous, sarcastic, critical)?\n" ++
   "    - **Personality Traits**: What adjectives describe their general demeanor (e.g., empathetic, analytical, cynical, enthusiastic)?\n" ++
   "    - **Potential Political Views**: Are there any indications of political leanings or social stances?\n" ++
   "\n" ++
   "    For EACH characteristic identified, you MUST cite the exact Reddit post or comment content that directly supports your inference.\n" ++
   "    Cite by including the full text of the supporting content, clearly marked with its type ([POST] or [COMMENT]) and its unique URL.\n" ++
   "\n" ++
   "    Example of desired output format:\n" ++
   "    **Interests:**\n" ++
   "    - Enjoys video games, especially RPGs. [Cite: [POST] URL: https://www.reddit.com/r/gaming/comments/... Title: My favorite RPGs Body: I spend hours playing The Witcher 3 and Elden Ring...]\n" ++
   "    - Has a strong interest in technology and AI. [Cite: [COMMENT] URL: https://www.reddit.com/r/technology/comments/... Body: AI advancements are truly fascinating, especially in natural language processing.]\n" ++
   "\n" ++
   "    **Values:**\n" ++
   "    - Values intellectual honesty and critical thinking. [Cite: [COMMENT] URL: https://www.reddit.com/r/science/comments/... Body: It\x27s important to base opinions on scientific evidence, not just anecdotal experiences.]\n" ++
   "\n" ++
   "    --- Reddit User Data for Analysis ---\n" ++
   "    ")

/-- One serialized post block (lines 105-109). -/
def postBlock (p : Post) : Str :=
  str "[POST] URL: " ++ p.url ++ str "\n" ++
  str "Title: " ++ p.title ++ str "\n" ++
  str "Body: " ++ p.selftext ++ str "\n\n"

/-- One serialized comment block (lines 112-115). -/
def commentBlock (c : Comment) : Str :=
  str "[COMMENT] URL: " ++ c.url ++ str "\n" ++
  str "Body: " ++ c.body ++ str "\n\n"

/-- The serialized content accumulated at lines 102-115: all post blocks
then all comment blocks. -/
def content_for_llm (posts : List Post) (comments : List Comment) : Str :=
  (posts.map postBlock).flatten ++ (comments.map commentBlock).flatten

/-- The truncation constant of line 122. -/
def max_input_length : Nat := 15000

/-- The truncation warning print of line 124, interpolating the pre-truncation
length. -/
def truncWarning (n : Nat) : Str :=
  str "Warning: Reddit data truncated from " ++ natStr n ++
  str " to 15000 characters to fit LLM context."

/-- The content actually embedded in the prompt after the truncation of
lines 122-125: sliced to the first 15000 characters when longer. -/
def truncated_content (posts : List Post) (comments : List Comment) : Str :=
  let c := content_for_llm posts comments
  if c.length > max_input_length then c.take max_input_length else c

/-- The API-key diagnostic at line 76. -/
def keyErrorMsg : Str :=
  str "Error: OpenAI API key not found in environment variables. Please set it in your .env file."

/-- `generate_persona` (lines 71-148). Checks the completion-API key for
truthiness and exits 1 when falsy (lines 75-77, before the completion
call). Builds the serialized content, prints the truncation warning and
truncates when the content exceeds 15000 characters (lines 122-125), and
issues one completion request with `prompt + content_for_llm` (lines
127-141). An `OpenAIError` or any other exception exits 1 (lines 142-148);
on success the response text is returned. -/
def generate_persona (cfg : Config) (llm : LLMBackend)
    (posts : List Post) (comments : List Comment) : Result Str :=
  if !(truthy cfg.OPENAI_API_KEY) then
    .exited 1 [.print keyErrorMsg]
  else
    let content := content_for_llm posts comments
    let warn : List Event :=
      if content.length > max_input_length then [.print (truncWarning content.length)]
      else []
    let full_prompt := prompt_template ++ truncated_content posts comments
    match llm with
    | .succeeds respond =>
        .ok (respond full_prompt) (warn ++ [.openaiCall full_prompt])
    | .openAIError msg =>
        .exited 1
          (warn ++ [.openaiCall full_prompt,
                    .print (str "An error occurred with the OpenAI API: " ++ msg),
                    .print (str "Please check your API key, subscription status, and try again.")])
    | .otherError msg =>
        .exited 1
          (warn ++ [.openaiCall full_prompt,
                    .print (str "An unexpected error occurred during persona generation: " ++ msg)])

/-- The output file name of line 155. -/
def filename_for (username : Str) : Str := username ++ str "_persona.txt"

/-- `save_persona` (lines 151-162): writes `persona_text` verbatim to
`<username>_persona.txt` (mode "w", so an existing file is overwritten) and
prints a success message; an `IOError` (`writeError = some e`) prints a
diagnostic and exits 1 without having produced the write. -/
def save_persona (writeError : Option Str) (username persona_text : Str) :
    Result Unit :=
  let filename := filename_for username
  match writeError with
  | some e =>
      .exited 1 [.print (str "Error saving persona to file " ++ filename ++ str ": " ++ e)]
  | none =>
      .ok () [.fileWrite filename persona_text,
              .print (str "Persona successfully saved to " ++ filename)]

/-- Python `str.strip()`: remove leading and trailing whitespace (line 170). -/
def strip (s : Str) : Str :=
  ((s.dropWhile Char.isWhitespace).reverse.dropWhile Char.isWhitespace).reverse

/-- The invalid-URL diagnostic at line 174. -/
def invalidUrlMsg : Str :=
  str "Invalid Reddit URL. Please ensure it\x27s in the format https://www.reddit.com/user/username/"

/-- The soft-failure print of line 181. -/
def noDataMsg (username : Str) : Str :=
  str "No posts or comments found for u/" ++ username ++
  str " or an error occurred during fetching. Cannot generate persona."

/-- The whole external world a run depends on: the environment variables,
the line typed at the URL prompt, the two API oracles, and whether the
final file write raises an `IOError` (with which message). -/
structure World where
  cfg : Config
  url : Str
  api : RedditBackend
  llm : LLMBackend
  writeError : Option Str

/-- `main` (lines 165-190): banner, read and strip the URL, extract the
username (exit 1 when the regex finds nothing), fetch (exit 0 with the
no-data message when both lists are empty), generate, and either save the
persona or print the failure message when the returned text is falsy. -/
def main (w : World) : Result Unit :=
  let t1 : List Event :=
    [.print (str "--- Reddit User Persona Generator ---"),
     .print (str "Enter Reddit profile URL (e.g., https://www.reddit.com/user/kojied/): ")]
  match extract_username (strip w.url) with
  | none => .exited 1 (t1 ++ [.print invalidUrlMsg])
  | some username =>
    let t2 := t1 ++ [.print (str "\n--- Processing u/" ++ username ++ str " ---")]
    match get_user_data w.cfg w.api username with
    | .exited c t => .exited c (t2 ++ t)
    | .ok (posts, comments) t =>
      let t3 := t2 ++ t
      if posts.isEmpty && comments.isEmpty then
        .exited 0 (t3 ++ [.print (noDataMsg username)])
      else
        let t4 := t3 ++ [.print (str "\n--- Generating User Persona (This may take a moment) ---")]
        match generate_persona w.cfg w.llm posts comments with
        | .exited c t => .exited c (t4 ++ t)
        | .ok persona t =>
          let t5 := t4 ++ t
          if !persona.isEmpty then
            match save_persona w.writeError username persona with
            | .exited c t => .exited c (t5 ++ t)
            | .ok _ t => .ok () (t5 ++ t)
          else
            .ok () (t5 ++ [.print (str "Failed to generate persona.")])

/-- The process-level outcome: `sys.exit c` gives status `c`; `main`
returning normally ends the interpreter with status 0 (lines 192-193). -/
def run (w : World) : Nat × List Event :=
  match main w with
  | .exited c t => (c, t)
  | .ok _ t => (0, t)

/-- Replay the file writes of a trace over a file system (file name to
contents). -/
def applyEvents (fs : Str → Option Str) : List Event → (Str → Option Str)
  | [] => fs
  | .fileWrite name contents :: rest =>
      applyEvents (fun f => if f = name then some contents else fs f) rest
  | _ :: rest => applyEvents fs rest

/-- Is this event a network call (to either external service)? -/
def Event.isNetwork : Event → Bool
  | .redditCall _ => true
  | .openaiCall _ => true
  | _ => false

/-! ### Concrete configurations, backends and worlds for witnesses and
counterexamples -/

/-- All three platform credentials and the completion-API key set. -/
def cfgFull : Config :=
  { REDDIT_CLIENT_ID := some (str "id"), REDDIT_CLIENT_SECRET := some (str "secret"),
    REDDIT_USER_AGENT := some (str "agent"), OPENAI_API_KEY := some (str "sk-test") }

/-- Platform credentials set, completion-API key unset. -/
def cfgNoKey : Config :=
  { REDDIT_CLIENT_ID := some (str "id"), REDDIT_CLIENT_SECRET := some (str "secret"),
    REDDIT_USER_AGENT := some (str "agent"), OPENAI_API_KEY := none }

/-- Platform client id unset, completion-API key set. -/
def cfgNoCreds : Config :=
  { REDDIT_CLIENT_ID := none, REDDIT_CLIENT_SECRET := some (str "secret"),
    REDDIT_USER_AGENT := some (str "agent"), OPENAI_API_KEY := some (str "sk-test") }

/-- One upstream self submission. -/
def subm1 : RawSubmission :=
  { id := str "p1", permalink := str "/r/a/comments/p1/t/", title := str "T",
    selftext := str "B", is_self := true }

/-- One upstream comment. -/
def comm1 : RawComment :=
  { id := str "c1", permalink := str "/r/a/comments/p1/t/c1/", body := str "CB" }

/-- An upstream link-only submission (no self text). -/
def subm2 : RawSubmission :=
  { id := str "p2", permalink := str "/r/b/comments/p2/t/", title := str "L",
    selftext := str "", is_self := false }

/-- A backend with more upstream items than a small limit. -/
def apiMany : RedditBackend :=
  { submissions := [subm1, subm2, subm1], comments := [comm1, comm1, comm1],
    behavior := .success }

/-- A backend whose fetch succeeds with one submission and one comment. -/
def apiOk : RedditBackend :=
  { submissions := [subm1], comments := [comm1], behavior := .success }

/-- A backend whose comments fetch raises after the posts were fetched. -/
def apiRaising : RedditBackend :=
  { submissions := [subm1], comments := [comm1],
    behavior := .raiseDuringComments (str "503") }

/-- A well-formed profile URL. -/
def urlOk : Str := str "https://www.reddit.com/user/kojied/"

/-- Full configuration, good URL, healthy backends. -/
def wHappy : World :=
  { cfg := cfgFull, url := urlOk, api := apiOk,
    llm := .succeeds (fun _ => str "PERSONA_TEXT"), writeError := none }

/-- Missing completion-API key, everything else healthy. -/
def wNoKey : World :=
  { cfg := cfgNoKey, url := urlOk, api := apiOk,
    llm := .succeeds (fun _ => str "PERSONA_TEXT"), writeError := none }

/-- Missing platform client id, everything else healthy. -/
def wNoCreds : World :=
  { cfg := cfgNoCreds, url := urlOk, api := apiOk,
    llm := .succeeds (fun _ => str "PERSONA_TEXT"), writeError := none }

/-- A URL without the user pattern. -/
def wBadUrl : World :=
  { cfg := cfgFull, url := str "https://example.com", api := apiOk,
    llm := .succeeds (fun _ => str "PERSONA_TEXT"), writeError := none }

/-- Full configuration but the fetch raises. -/
def wRaising : World :=
  { cfg := cfgFull, url := urlOk, api := apiRaising,
    llm := .succeeds (fun _ => str "PERSONA_TEXT"), writeError := none }

/-- The completion API succeeds but returns the empty string. -/
def wEmptyPersona : World :=
  { cfg := cfgFull, url := urlOk, api := apiOk,
    llm := .succeeds (fun _ => str ""), writeError := none }

/-- A file system that already holds a stale persona file for kojied. -/
def fsPre : Str → Option Str :=
  fun f => if f = str "kojied_persona.txt" then some (str "OLD") else none

/-! ### Lemmas about the regex search of `extract_username` -/

/-- `takeWhile` of not-slash collects exactly the run before the first slash. -/
lemma takeWhile_stops_at_slash (name rest : Str) (h : ∀ c ∈ name, c ≠ '/') :
    (name ++ '/' :: rest).takeWhile (fun c => c != '/') = name := by
  induction name with
  | nil => simp
  | cons a l ih =>
    have ha : a ≠ '/' := h a (List.mem_cons_self a l)
    simp only [List.cons_append, List.takeWhile_cons]
    rw [if_pos (by simpa using ha)]
    rw [ih (fun c hc => h c (List.mem_cons_of_mem a hc))]

/-- The regex matches at a position where the literal is followed by a
non-empty slash-free name and then a slash, capturing exactly the name. -/
lemma matchAt_at_pattern (name rest : Str) (hne : name ≠ [])
    (h : ∀ c ∈ name, c ≠ '/') :
    matchAt (user_pattern ++ (name ++ '/' :: rest)) = some name := by
  have hpre : user_pattern.isPrefixOf (user_pattern ++ (name ++ '/' :: rest)) = true := by
    simp [List.isPrefixOf_iff_prefix]
  have hdrop : (user_pattern ++ (name ++ '/' :: rest)).drop user_pattern.length
      = name ++ '/' :: rest := List.drop_left _ _
  unfold matchAt
  rw [hpre, if_pos rfl, hdrop, takeWhile_stops_at_slash name rest h]
  rw [if_neg (by simpa [List.isEmpty_iff] using hne)]

/-- If the regex matches at the head, the search returns that capture. -/
lemma searchFrom_eq_of_matchAt (s name : Str) (h : matchAt s = some name) :
    searchFrom s = some name := by
  cases s with
  | nil =>
    have : matchAt ([] : Str) = none := rfl
    rw [this] at h; cases h
  | cons c rest => simp [searchFrom, h]

/-- The search skips over a prefix at which no position matches. -/
lemma searchFrom_append (pre s : Str)
    (h : ∀ j, j < pre.length → matchAt (List.drop j (pre ++ s)) = none) :
    searchFrom (pre ++ s) = searchFrom s := by
  induction pre with
  | nil => rfl
  | cons c l ih =>
    have h0 := h 0 (Nat.succ_pos _)
    simp only [List.drop_zero, List.cons_append, List.append_eq] at h0
    simp only [List.cons_append, searchFrom, List.append_eq, h0]
    exact ih (fun j hj => by
      have := h (j + 1) (Nat.succ_lt_succ hj)
      simpa [List.cons_append] using this)

/-- If no position of `s` matches, the search finds nothing. -/
lemma searchFrom_eq_none (s : Str)
    (h : ∀ j, j ≤ s.length → matchAt (List.drop j s) = none) :
    searchFrom s = none := by
  induction s with
  | nil => rfl
  | cons c rest ih =>
    have h0 := h 0 (Nat.zero_le _)
    simp only [List.drop_zero] at h0
    simp only [searchFrom, h0]
    exact ih (fun j hj => by
      have := h (j + 1) (by simpa using Nat.succ_le_succ hj)
      simpa using this)

/-- C4: for every input string containing the segment `reddit.com/user/<name>/...`
(with the pattern not matching at any earlier position, matching the
leftmost-match semantics of `re.search`), `extract_username` returns exactly
`<name>`, the maximal run of non-slash characters after `user/`; for every
string at which no position matches the pattern it returns the `None`
sentinel; in particular "https://example.com" yields the sentinel and
"https://www.reddit.com/user/kojied/" yields "kojied". `extract_username`
is embedded as a pure function, performing no side effects. -/
theorem C4_extract_username_spec :
    (∀ pre name rest : Str, name ≠ [] → (∀ c ∈ name, c ≠ '/') →
      (∀ j, j < pre.length →
        matchAt (List.drop j (pre ++ (user_pattern ++ (name ++ '/' :: rest)))) = none) →
      extract_username (pre ++ (user_pattern ++ (name ++ '/' :: rest))) = some name) ∧
    (∀ s : Str, (∀ j, j ≤ s.length → matchAt (List.drop j s) = none) →
      extract_username s = none) ∧
    extract_username (str "https://example.com") = none ∧
    extract_username (str "https://www.reddit.com/user/kojied/") = some (str "kojied") := by
  refine ⟨?_, ?_, by decide, by decide⟩
  · intro pre name rest hne hns hpre
    unfold extract_username
    rw [searchFrom_append pre _ hpre]
    exact searchFrom_eq_of_matchAt _ _ (matchAt_at_pattern name rest hne hns)
  · intro s h
    exact searchFrom_eq_none s h

/-- Witness for C4 at concrete inputs: the profile URL
"https://www.reddit.com/user/kojied/" decomposed around the pattern, and a
pattern-free string. -/
theorem C4_extract_username_spec_witness :
    extract_username (str "https://www." ++ (user_pattern ++ (str "kojied" ++ '/' :: str ""))) =
      some (str "kojied") ∧
    extract_username (str "http://x.y") = none :=
  ⟨C4_extract_username_spec.1 (str "https://www.") (str "kojied") (str "")
      (by decide) (by decide) (by decide),
   C4_extract_username_spec.2.1 (str "http://x.y") (by decide)⟩

/-! ### Stage-level lemmas -/

/-- With any platform credential falsy, `get_user_data` exits 1 having
printed only the diagnostic (lines 30-32). -/
lemma get_user_data_creds_missing (cfg : Config) (api : RedditBackend)
    (username : Str) (limit : Nat)
    (h : (truthy cfg.REDDIT_CLIENT_ID && truthy cfg.REDDIT_CLIENT_SECRET
          && truthy cfg.REDDIT_USER_AGENT) = false) :
    get_user_data cfg api username limit = .exited 1 [.print credsErrorMsg] := by
  simp [get_user_data, h]

/-- With credentials present and a raising fetch, `get_user_data` returns
two empty lists (lines 64-67). -/
lemma get_user_data_error_empty (cfg : Config) (api : RedditBackend)
    (username : Str) (limit : Nat)
    (hc : (truthy cfg.REDDIT_CLIENT_ID && truthy cfg.REDDIT_CLIENT_SECRET
           && truthy cfg.REDDIT_USER_AGENT) = true)
    (hb : api.behavior ≠ FetchBehavior.success) :
    (get_user_data cfg api username limit).returns = some ([], []) := by
  cases hb2 : api.behavior with
  | success => exact absurd hb2 hb
  | raiseDuringPosts m => simp [get_user_data, hc, hb2, Result.returns]
  | raiseDuringComments m => simp [get_user_data, hc, hb2, Result.returns]

/-- Every event `get_user_data` emits is a print or a platform read call:
it never calls the completion API and never writes a file. -/
lemma get_user_data_trace_shape (cfg : Config) (api : RedditBackend)
    (username : Str) (limit : Nat) :
    ∀ e ∈ (get_user_data cfg api username limit).trace,
      (∃ s, e = Event.print s) ∨ (∃ u, e = Event.redditCall u) := by
  intro e he
  by_cases hc : (truthy cfg.REDDIT_CLIENT_ID && truthy cfg.REDDIT_CLIENT_SECRET
      && truthy cfg.REDDIT_USER_AGENT) = true
  · cases hb : api.behavior with
    | success =>
      simp [get_user_data, hc, hb, Result.trace] at he
      rcases he with h | h | h | h | h <;> subst h <;> simp
    | raiseDuringPosts m =>
      simp [get_user_data, hc, hb, Result.trace, fetchErrorPrints] at he
      rcases he with h | h | h | h <;> subst h <;> simp
    | raiseDuringComments m =>
      simp [get_user_data, hc, hb, Result.trace, fetchErrorPrints] at he
      rcases he with h | h | h | h | h | h <;> subst h <;> simp
  · rw [get_user_data_creds_missing cfg api username limit (by simpa using hc)] at he
    simp [Result.trace] at he
    subst he; simp

/-- With the completion-API key falsy, `generate_persona` exits 1 having
printed only the diagnostic (lines 75-77). -/
lemma generate_persona_key_missing (cfg : Config) (llm : LLMBackend)
    (posts : List Post) (comments : List Comment)
    (h : truthy cfg.OPENAI_API_KEY = false) :
    generate_persona cfg llm posts comments = .exited 1 [.print keyErrorMsg] := by
  simp [generate_persona, h]

/-- Every event `generate_persona` emits is a print or a completion-API
call: it never calls the platform API and never writes a file. -/
lemma generate_persona_trace_shape (cfg : Config) (llm : LLMBackend)
    (posts : List Post) (comments : List Comment) :
    ∀ e ∈ (generate_persona cfg llm posts comments).trace,
      (∃ s, e = Event.print s) ∨ (∃ p, e = Event.openaiCall p) := by
  intro e he
  by_cases hk : truthy cfg.OPENAI_API_KEY = true
  · cases llm with
    | succeeds respond =>
      simp [generate_persona, hk, Result.trace] at he
      rcases he with h | h
      · rcases h with ⟨-, h⟩; subst h; simp
      · subst h; simp
    | openAIError m =>
      simp [generate_persona, hk, Result.trace] at he
      rcases he with h | h | h | h
      · rcases h with ⟨-, h⟩; subst h; simp
      · subst h; simp
      · subst h; simp
      · subst h; simp
    | otherError m =>
      simp [generate_persona, hk, Result.trace] at he
      rcases he with h | h | h
      · rcases h with ⟨-, h⟩; subst h; simp
      · subst h; simp
      · subst h; simp
  · rw [generate_persona_key_missing cfg llm posts comments (by simpa using hk)] at he
    simp [Result.trace] at he
    subst he; simp

/-- Every event `save_persona` emits is a print or a file write. -/
lemma save_persona_trace_shape (we : Option Str) (username text : Str) :
    ∀ e ∈ (save_persona we username text).trace,
      (∃ s, e = Event.print s) ∨ (∃ f c, e = Event.fileWrite f c) := by
  intro e he
  cases we with
  | none =>
    simp [save_persona, Result.trace] at he
    rcases he with h | h <;> subst h <;> simp
  | some m =>
    simp [save_persona, Result.trace] at he
    subst he; simp

/-! ### Main-level lemmas -/

/-- A run whose URL yields no username exits 1 after the banner, the input
prompt, and the invalid-URL diagnostic (lines 173-175). -/
lemma run_bad_url (w : World) (h : extract_username (strip w.url) = none) :
    run w = (1, [.print (str "--- Reddit User Persona Generator ---"),
                 .print (str "Enter Reddit profile URL (e.g., https://www.reddit.com/user/kojied/): "),
                 .print invalidUrlMsg]) := by
  simp [run, main, h]

/-- A run with a well-formed URL but a falsy platform credential exits 1. -/
lemma run_creds_missing (w : World) (u : Str)
    (hext : extract_username (strip w.url) = some u)
    (hc : (truthy w.cfg.REDDIT_CLIENT_ID && truthy w.cfg.REDDIT_CLIENT_SECRET
           && truthy w.cfg.REDDIT_USER_AGENT) = false) :
    (run w).1 = 1 := by
  simp [run, main, hext, get_user_data_creds_missing w.cfg w.api u 50 hc]

/-- When the fetch returns two empty lists the run prints the no-data
message and exits 0 (lines 180-182). -/
lemma run_empty_data (w : World) (u : Str) (t : List Event)
    (hext : extract_username (strip w.url) = some u)
    (hget : get_user_data w.cfg w.api u = .ok ([], []) t) :
    (run w).1 = 0 ∧ Event.print (noDataMsg u) ∈ (run w).2 := by
  simp [run, main, hext, hget]

/-- With a falsy platform credential, no network call of any kind happens:
the run exits 1 with a print-only trace. -/
lemma run_creds_missing_no_network (w : World)
    (hc : (truthy w.cfg.REDDIT_CLIENT_ID && truthy w.cfg.REDDIT_CLIENT_SECRET
           && truthy w.cfg.REDDIT_USER_AGENT) = false) :
    (run w).1 = 1 ∧ ∀ e ∈ (run w).2, Event.isNetwork e = false := by
  cases hext : extract_username (strip w.url) with
  | none =>
    rw [run_bad_url w hext]
    refine ⟨rfl, ?_⟩
    intro e he
    simp at he
    rcases he with h | h | h <;> subst h <;> rfl
  | some u =>
    have hmain : run w = (1, ([.print (str "--- Reddit User Persona Generator ---"),
        .print (str "Enter Reddit profile URL (e.g., https://www.reddit.com/user/kojied/): "),
        .print (str "\n--- Processing u/" ++ u ++ str " ---")] ++ [.print credsErrorMsg])) := by
      simp [run, main, hext, get_user_data_creds_missing w.cfg w.api u 50 hc]
    rw [hmain]
    refine ⟨rfl, ?_⟩
    intro e he
    simp at he
    rcases he with h | h | h | h <;> subst h <;> rfl

/-- With a falsy completion-API key, the completion API is never called on
any path. -/
lemma run_key_missing_no_openai (w : World)
    (hk : truthy w.cfg.OPENAI_API_KEY = false) :
    ∀ p, Event.openaiCall p ∉ (run w).2 := by
  intro p hp
  cases hext : extract_username (strip w.url) with
  | none =>
    rw [run_bad_url w hext] at hp
    simp at hp
  | some u =>
    cases hget : get_user_data w.cfg w.api u with
    | exited c t =>
      have htr : Event.openaiCall p ∉ t := by
        intro hmem
        have := get_user_data_trace_shape w.cfg w.api u 50 (Event.openaiCall p)
          (by rw [hget]; exact hmem)
        rcases this with ⟨s, h⟩ | ⟨v, h⟩ <;> cases h
      have hrw : run w = (c, ([.print (str "--- Reddit User Persona Generator ---"),
          .print (str "Enter Reddit profile URL (e.g., https://www.reddit.com/user/kojied/): "),
          .print (str "\n--- Processing u/" ++ u ++ str " ---")] ++ t)) := by
        simp [run, main, hext, hget]
      rw [hrw] at hp
      rcases List.mem_append.mp hp with h | h
      · simp at h
      · exact htr h
    | ok pc t =>
      obtain ⟨posts, comments⟩ := pc
      have htr : Event.openaiCall p ∉ t := by
        intro hmem
        have := get_user_data_trace_shape w.cfg w.api u 50 (Event.openaiCall p)
          (by rw [hget]; exact hmem)
        rcases this with ⟨s, h⟩ | ⟨v, h⟩ <;> cases h
      by_cases hempty : (posts.isEmpty && comments.isEmpty) = true
      · have hrw : run w = (0, ([.print (str "--- Reddit User Persona Generator ---"),
            .print (str "Enter Reddit profile URL (e.g., https://www.reddit.com/user/kojied/): "),
            .print (str "\n--- Processing u/" ++ u ++ str " ---")] ++ t
            ++ [.print (noDataMsg u)])) := by
          simp [run, main, hext, hget, hempty]
        rw [hrw] at hp
        rcases List.mem_append.mp hp with h | h
        · rcases List.mem_append.mp h with h' | h'
          · simp at h'
          · exact htr h'
        · simp at h
      · have hgen := generate_persona_key_missing w.cfg w.llm posts comments hk
        have hrw : run w = (1, ([.print (str "--- Reddit User Persona Generator ---"),
            .print (str "Enter Reddit profile URL (e.g., https://www.reddit.com/user/kojied/): "),
            .print (str "\n--- Processing u/" ++ u ++ str " ---")] ++ t
            ++ [.print (str "\n--- Generating User Persona (This may take a moment) ---"),
                .print keyErrorMsg])) := by
          simp [run, main, hext, hget, hempty, hgen]
        rw [hrw] at hp
        rcases List.mem_append.mp hp with h | h
        · rcases List.mem_append.mp h with h' | h'
          · simp at h'
          · exact htr h'
        · simp at h

/-! ### The claims -/

/-- C1: any internal error of the fetch step (the raise behaviors model
invalid username, rate limiting, authentication failure, and network
errors) is caught by the handler of lines 64-67: with credentials present,
`get_user_data` returns two empty collections instead of propagating; and
whenever `get_user_data` hands two empty collections back to `main`, the
program prints the no-data message and exits with process status 0
(lines 180-182). -/
theorem C1_fetch_error_soft_failure :
    (∀ (cfg : Config) (api : RedditBackend) (username : Str) (limit : Nat),
      (truthy cfg.REDDIT_CLIENT_ID && truthy cfg.REDDIT_CLIENT_SECRET
       && truthy cfg.REDDIT_USER_AGENT) = true →
      api.behavior ≠ FetchBehavior.success →
      (get_user_data cfg api username limit).returns = some ([], [])) ∧
    (∀ (w : World) (u : Str) (t : List Event),
      extract_username (strip w.url) = some u →
      get_user_data w.cfg w.api u = .ok ([], []) t →
      (run w).1 = 0 ∧ Event.print (noDataMsg u) ∈ (run w).2) :=
  ⟨fun cfg api username limit hc hb =>
      get_user_data_error_empty cfg api username limit hc hb,
   fun w u t hext hget => run_empty_data w u t hext hget⟩

/-- Witness for C1: a backend raising during the comments fetch yields two
empty collections, and the corresponding full run exits 0 printing the
no-data message. -/
theorem C1_fetch_error_soft_failure_witness :
    (get_user_data cfgFull apiRaising (str "kojied") 50).returns = some ([], []) ∧
    ((run wRaising).1 = 0 ∧ Event.print (noDataMsg (str "kojied")) ∈ (run wRaising).2) :=
  ⟨C1_fetch_error_soft_failure.1 cfgFull apiRaising (str "kojied") 50 (by decide) (by decide),
   C1_fetch_error_soft_failure.2 wRaising (str "kojied")
     ((get_user_data cfgFull apiRaising (str "kojied")).trace) (by decide) (by decide)⟩

/-- C2 counterexample: with the three platform credentials present but the
completion-API key absent, the run performs platform network calls before
terminating, so "missing any one of the four configuration values
terminates the program before any network call" is false at this input. -/
theorem C2_counterexample_key_checked_late :
    wNoKey.cfg.OPENAI_API_KEY = none ∧
    (run wNoKey).1 = 1 ∧
    (run wNoKey).2.any Event.isNetwork = true := by decide

/-- C2 amended: a falsy platform credential (client id, secret or user
agent) terminates the run with status 1 before any network call; a falsy
completion-API key only guarantees that the completion API is never
called — the platform read calls may already have happened, and the key is
checked only when generate_persona starts (lines 75-77). -/
theorem C2_config_gating :
    (∀ w : World,
      (truthy w.cfg.REDDIT_CLIENT_ID = false ∨
       truthy w.cfg.REDDIT_CLIENT_SECRET = false ∨
       truthy w.cfg.REDDIT_USER_AGENT = false) →
      (run w).1 = 1 ∧ ∀ e ∈ (run w).2, Event.isNetwork e = false) ∧
    (∀ w : World, truthy w.cfg.OPENAI_API_KEY = false →
      ∀ p, Event.openaiCall p ∉ (run w).2) := by
  constructor
  · intro w h
    have hc : (truthy w.cfg.REDDIT_CLIENT_ID && truthy w.cfg.REDDIT_CLIENT_SECRET
        && truthy w.cfg.REDDIT_USER_AGENT) = false := by
      rcases h with h | h | h <;> simp [h]
    exact run_creds_missing_no_network w hc
  · intro w h
    exact run_key_missing_no_openai w h

/-- Witness for C2 (amended): the missing-client-id world exits 1, its
first trace event is not a network call, and the missing-key world never
calls the completion API. -/
theorem C2_config_gating_witness :
    (run wNoCreds).1 = 1 ∧
    Event.isNetwork (Event.print (str "--- Reddit User Persona Generator ---")) = false ∧
    Event.openaiCall (str "p") ∉ (run wNoKey).2 :=
  ⟨(C2_config_gating.1 wNoCreds (Or.inl (by decide))).1,
   (C2_config_gating.1 wNoCreds (Or.inl (by decide))).2 _ (by decide),
   C2_config_gating.2 wNoKey (by decide) (str "p")⟩

/-- The truncation warning starts with a W, the API-error diagnostic with
an A: they are never the same line. -/
lemma truncWarning_ne_apiErr (n : Nat) (msg : Str) :
    truncWarning n ≠ str "An error occurred with the OpenAI API: " ++ msg :=
  of_decide_eq_false rfl

/-- The truncation warning is never the check-your-key diagnostic. -/
lemma truncWarning_ne_checkMsg (n : Nat) :
    truncWarning n ≠ str "Please check your API key, subscription status, and try again." :=
  of_decide_eq_false rfl

/-- The truncation warning is never the unexpected-error diagnostic. -/
lemma truncWarning_ne_unexpectedErr (n : Nat) (msg : Str) :
    truncWarning n ≠ str "An unexpected error occurred during persona generation: " ++ msg :=
  of_decide_eq_false rfl

/-- C3: once `generate_persona` passes the key check of line 75 (the only
way it reaches the serialization code), the content block embedded in the
completion prompt is at most 15000 characters long even when the raw
serialization exceeds that; the prompt sent to the completion API is
exactly the fixed template followed by that truncated block; and the
truncation warning is printed if and only if the pre-truncation
serialization exceeds 15000 characters. -/
theorem C3_truncation_bound (cfg : Config) (llm : LLMBackend)
    (posts : List Post) (comments : List Comment)
    (hkey : truthy cfg.OPENAI_API_KEY = true) :
    (truncated_content posts comments).length ≤ max_input_length ∧
    Event.openaiCall (prompt_template ++ truncated_content posts comments) ∈
      (generate_persona cfg llm posts comments).trace ∧
    (Event.print (truncWarning (content_for_llm posts comments).length) ∈
        (generate_persona cfg llm posts comments).trace ↔
      max_input_length < (content_for_llm posts comments).length) := by
  refine ⟨?_, ?_, ?_⟩
  · simp only [truncated_content]
    split
    · simp [List.length_take]
    · omega
  · by_cases hlen : (content_for_llm posts comments).length > max_input_length <;>
      cases llm <;>
        simp [generate_persona, hkey, hlen, Result.trace, truncated_content]
  · by_cases hlen : (content_for_llm posts comments).length > max_input_length <;>
      cases llm <;>
        simp [generate_persona, hkey, hlen, Result.trace, truncated_content,
          truncWarning_ne_apiErr, truncWarning_ne_checkMsg, truncWarning_ne_unexpectedErr]

/-- Witness for C3 at a concrete configuration, backend and content. -/
theorem C3_truncation_bound_witness :
    (truncated_content [mkPost subm1] []).length ≤ max_input_length ∧
    Event.openaiCall (prompt_template ++ truncated_content [mkPost subm1] []) ∈
      (generate_persona cfgFull (.succeeds (fun x => x)) [mkPost subm1] []).trace ∧
    (Event.print (truncWarning (content_for_llm [mkPost subm1] []).length) ∈
        (generate_persona cfgFull (.succeeds (fun x => x)) [mkPost subm1] []).trace ↔
      max_input_length < (content_for_llm [mkPost subm1] []).length) :=
  C3_truncation_bound cfgFull (.succeeds (fun x => x)) [mkPost subm1] [] (by decide)

/-- C5: on a successful write, `save_persona` emits exactly one file write,
of the persona text verbatim (no framing, prefix or suffix), to the file
named `<username>_persona.txt`; replaying the trace over any file system
(including one where that file already exists) leaves that name mapped to
exactly the text and every other name unchanged. -/
theorem C5_save_verbatim (username text : Str) (fs : Str → Option Str) :
    save_persona none username text =
      .ok () [.fileWrite (filename_for username) text,
              .print (str "Persona successfully saved to " ++ filename_for username)] ∧
    applyEvents fs (save_persona none username text).trace (filename_for username) = some text ∧
    ∀ f, f ≠ filename_for username →
      applyEvents fs (save_persona none username text).trace f = fs f := by
  refine ⟨rfl, ?_, ?_⟩
  · simp [save_persona, Result.trace, applyEvents]
  · intro f hf
    simp [save_persona, Result.trace, applyEvents, hf]

/-- Witness for C5: a mocked "PERSONA_TEXT" persona for kojied overwrites
the stale file with exactly "PERSONA_TEXT" and leaves another name
untouched. -/
theorem C5_save_verbatim_witness :
    applyEvents fsPre (save_persona none (str "kojied") (str "PERSONA_TEXT")).trace
      (filename_for (str "kojied")) = some (str "PERSONA_TEXT") ∧
    applyEvents fsPre (save_persona none (str "kojied") (str "PERSONA_TEXT")).trace
      (str "other.txt") = fsPre (str "other.txt") :=
  ⟨(C5_save_verbatim (str "kojied") (str "PERSONA_TEXT") fsPre).2.1,
   (C5_save_verbatim (str "kojied") (str "PERSONA_TEXT") fsPre).2.2 (str "other.txt")
     (by decide)⟩

/-- C6 counterexample: the bad-URL early exit and the
missing-configuration early exit both terminate with process status 1
(each identified by its own diagnostic in the trace), so these two early
exits do not carry distinct exit codes. -/
theorem C6_counterexample_shared_exit_code :
    (run wBadUrl).1 = 1 ∧ (run wNoCreds).1 = 1 ∧
    Event.print invalidUrlMsg ∈ (run wBadUrl).2 ∧
    Event.print credsErrorMsg ∈ (run wNoCreds).2 := by decide

/-- C6 amended: the early-exit edges carry exactly two distinct status
values, not pairwise distinct ones: the empty-data abort at Fetched exits
0, while the bad-URL exit at Start, the missing-credential exit, the
missing-key exit, both completion-API error exits, and the write-error
exit all share status 1. -/
theorem C6_exit_code_classes :
    (∀ w : World, extract_username (strip w.url) = none → (run w).1 = 1) ∧
    (∀ (w : World) (u : Str) (t : List Event),
      extract_username (strip w.url) = some u →
      get_user_data w.cfg w.api u = .ok ([], []) t → (run w).1 = 0) ∧
    (∀ (w : World) (u : Str), extract_username (strip w.url) = some u →
      (truthy w.cfg.REDDIT_CLIENT_ID && truthy w.cfg.REDDIT_CLIENT_SECRET
       && truthy w.cfg.REDDIT_USER_AGENT) = false → (run w).1 = 1) ∧
    (∀ (cfg : Config) (llm : LLMBackend) (posts : List Post) (comments : List Comment),
      truthy cfg.OPENAI_API_KEY = false →
      (generate_persona cfg llm posts comments).exitCode = some 1) ∧
    (∀ (cfg : Config) (posts : List Post) (comments : List Comment) (msg : Str),
      truthy cfg.OPENAI_API_KEY = true →
      (generate_persona cfg (.openAIError msg) posts comments).exitCode = some 1 ∧
      (generate_persona cfg (.otherError msg) posts comments).exitCode = some 1) ∧
    (∀ (e username text : Str),
      (save_persona (some e) username text).exitCode = some 1) := by
  refine ⟨?_, ?_, ?_, ?_, ?_, ?_⟩
  · intro w h
    rw [run_bad_url w h]
  · intro w u t hext hget
    exact (run_empty_data w u t hext hget).1
  · intro w u hext hc
    exact run_creds_missing w u hext hc
  · intro cfg llm posts comments hk
    rw [generate_persona_key_missing cfg llm posts comments hk]
    rfl
  · intro cfg posts comments msg hk
    constructor <;> simp [generate_persona, hk, Result.exitCode]
  · intro e username text
    rfl

/-- Witness for C6 (amended): the concrete bad-URL, empty-data and
missing-credential runs and the concrete API-error and write-error stage
outcomes, with the claimed exit codes. -/
theorem C6_exit_code_classes_witness :
    (run wBadUrl).1 = 1 ∧
    (run wRaising).1 = 0 ∧
    (run wNoCreds).1 = 1 ∧
    (generate_persona cfgNoKey (.succeeds (fun x => x)) [] []).exitCode = some 1 ∧
    (generate_persona cfgFull (.openAIError (str "quota")) [] []).exitCode = some 1 ∧
    (save_persona (some (str "disk full")) (str "kojied") (str "PERSONA_TEXT")).exitCode
      = some 1 :=
  ⟨C6_exit_code_classes.1 wBadUrl (by decide),
   C6_exit_code_classes.2.1 wRaising (str "kojied")
     ((get_user_data cfgFull apiRaising (str "kojied")).trace) (by decide) (by decide),
   C6_exit_code_classes.2.2.1 wNoCreds (str "kojied") (by decide) (by decide),
   C6_exit_code_classes.2.2.2.1 cfgNoKey (.succeeds (fun x => x)) [] [] (by decide),
   (C6_exit_code_classes.2.2.2.2.1 cfgFull [] [] (str "quota") (by decide)).1,
   C6_exit_code_classes.2.2.2.2.2 (str "disk full") (str "kojied") (str "PERSONA_TEXT")⟩

/-- Inversion for a fetch that returned: either an exception emptied both
lists, or the fetch succeeded and the lists are the mapped, limit-truncated
upstream listings. -/
lemma get_user_data_ok_inv (cfg : Config) (api : RedditBackend) (username : Str)
    (limit : Nat) (posts : List Post) (comments : List Comment) (t : List Event)
    (h : get_user_data cfg api username limit = .ok (posts, comments) t) :
    (posts = [] ∧ comments = []) ∨
    (api.behavior = FetchBehavior.success ∧
     posts = (api.submissions.take limit).map mkPost ∧
     comments = (api.comments.take limit).map mkComment) := by
  have hret : (get_user_data cfg api username limit).returns = some (posts, comments) := by
    rw [h]; rfl
  by_cases hc : (truthy cfg.REDDIT_CLIENT_ID && truthy cfg.REDDIT_CLIENT_SECRET
      && truthy cfg.REDDIT_USER_AGENT) = true
  · cases hb : api.behavior with
    | success =>
      have hval : (get_user_data cfg api username limit).returns =
          some ((api.submissions.take limit).map mkPost,
                (api.comments.take limit).map mkComment) := by
        simp [get_user_data, hc, hb, Result.returns]
      rw [hret] at hval
      have hpair := Option.some.inj hval
      exact Or.inr ⟨rfl, congrArg Prod.fst hpair, congrArg Prod.snd hpair⟩
    | raiseDuringPosts m =>
      have hval : (get_user_data cfg api username limit).returns = some ([], []) :=
        get_user_data_error_empty cfg api username limit hc (by simp [hb])
      rw [hret] at hval
      have hpair := Option.some.inj hval
      exact Or.inl ⟨congrArg Prod.fst hpair, congrArg Prod.snd hpair⟩
    | raiseDuringComments m =>
      have hval : (get_user_data cfg api username limit).returns = some ([], []) :=
        get_user_data_error_empty cfg api username limit hc (by simp [hb])
      rw [hret] at hval
      have hpair := Option.some.inj hval
      exact Or.inl ⟨congrArg Prod.fst hpair, congrArg Prod.snd hpair⟩
  · rw [get_user_data_creds_missing cfg api username limit (by simpa using hc)] at h
    cases h

/-- C7: every Post and every Comment returned by `get_user_data` carries a
non-empty url equal to the base URL "https://www.reddit.com" concatenated
with the permalink of that item. -/
theorem C7_urls_fully_qualified (cfg : Config) (api : RedditBackend)
    (username : Str) (limit : Nat) (posts : List Post) (comments : List Comment)
    (t : List Event)
    (h : get_user_data cfg api username limit = .ok (posts, comments) t) :
    (∀ p ∈ posts, p.url ≠ [] ∧
      ∃ s ∈ api.submissions, p.url = str "https://www.reddit.com" ++ s.permalink) ∧
    (∀ c ∈ comments, c.url ≠ [] ∧
      ∃ rc ∈ api.comments, c.url = str "https://www.reddit.com" ++ rc.permalink) := by
  rcases get_user_data_ok_inv cfg api username limit posts comments t h with
    ⟨hp, hcm⟩ | ⟨hb, hp, hcm⟩
  · subst hp; subst hcm
    exact ⟨fun p hp => absurd hp (List.not_mem_nil p),
           fun c hc => absurd hc (List.not_mem_nil c)⟩
  · subst hp; subst hcm
    constructor
    · intro p hp
      obtain ⟨s, hs, rfl⟩ := List.mem_map.mp hp
      refine ⟨fun hurl => ?_, s, List.take_subset _ _ hs, rfl⟩
      rw [mkPost] at hurl
      simp only [List.append_eq_nil] at hurl
      exact absurd hurl.1 (by decide)
    · intro c hc
      obtain ⟨rc, hrc, rfl⟩ := List.mem_map.mp hc
      refine ⟨fun hurl => ?_, rc, List.take_subset _ _ hrc, rfl⟩
      rw [mkComment] at hurl
      simp only [List.append_eq_nil] at hurl
      exact absurd hurl.1 (by decide)

/-- Witness for C7: the posts and comments of a successful concrete fetch,
evaluated at the single returned post and comment. -/
theorem C7_urls_fully_qualified_witness :
    ((mkPost subm1).url ≠ [] ∧
      ∃ s ∈ apiOk.submissions, (mkPost subm1).url = str "https://www.reddit.com" ++ s.permalink) ∧
    ((mkComment comm1).url ≠ [] ∧
      ∃ rc ∈ apiOk.comments, (mkComment comm1).url = str "https://www.reddit.com" ++ rc.permalink) := by
  have h := C7_urls_fully_qualified cfgFull apiOk (str "kojied") 50
    [mkPost subm1] [mkComment comm1]
    ((get_user_data cfgFull apiOk (str "kojied")).trace) (by decide)
  exact ⟨h.1 (mkPost subm1) (by decide), h.2 (mkComment comm1) (by decide)⟩

/-- C8: for every username, every limit, and every upstream collection
however large, `get_user_data` returns at most `limit` posts and at most
`limit` comments. (The Python signature defaults `limit` to 50, the value
`main` uses.) -/
theorem C8_limit_bound (cfg : Config) (api : RedditBackend) (username : Str)
    (limit : Nat) (posts : List Post) (comments : List Comment) (t : List Event)
    (h : get_user_data cfg api username limit = .ok (posts, comments) t) :
    posts.length ≤ limit ∧ comments.length ≤ limit := by
  rcases get_user_data_ok_inv cfg api username limit posts comments t h with
    ⟨hp, hcm⟩ | ⟨hb, hp, hcm⟩
  · subst hp; subst hcm; simp
  · subst hp; subst hcm
    constructor <;> · simp [List.length_take]

/-- Witness for C8: a backend with three upstream submissions and comments,
fetched with limit 2, returns exactly two of each. -/
theorem C8_limit_bound_witness :
    ([mkPost subm1, mkPost subm2] : List Post).length ≤ 2 ∧
    ([mkComment comm1, mkComment comm1] : List Comment).length ≤ 2 :=
  C8_limit_bound cfgFull apiMany (str "kojied") 2
    [mkPost subm1, mkPost subm2] [mkComment comm1, mkComment comm1]
    ((get_user_data cfgFull apiMany (str "kojied") 2).trace) (by decide)

/-- C9: on a successful fetch the returned posts are exactly the upstream
submissions (up to the limit) mapped through the dict construction of lines
47-52, which records the id, the fully-qualified permalink, the title, and
as body the own self text of the submission for self posts and the placeholder
"[Link Post]" exactly for link-only submissions (`is_self = false`, which
on the platform is the class of submissions with no self text). -/
theorem C9_post_fields (cfg : Config) (api : RedditBackend) (username : Str)
    (limit : Nat) (posts : List Post) (comments : List Comment) (t : List Event)
    (h : get_user_data cfg api username limit = .ok (posts, comments) t)
    (hb : api.behavior = FetchBehavior.success) :
    posts = (api.submissions.take limit).map mkPost ∧
    ∀ s : RawSubmission,
      (mkPost s).id = s.id ∧
      (mkPost s).url = str "https://www.reddit.com" ++ s.permalink ∧
      (mkPost s).title = s.title ∧
      (s.is_self = true → (mkPost s).selftext = s.selftext) ∧
      (s.is_self = false → (mkPost s).selftext = str "[Link Post]") := by
  constructor
  · by_cases hc : (truthy cfg.REDDIT_CLIENT_ID && truthy cfg.REDDIT_CLIENT_SECRET
        && truthy cfg.REDDIT_USER_AGENT) = true
    · have hret : (get_user_data cfg api username limit).returns = some (posts, comments) := by
        rw [h]; rfl
      have hval : (get_user_data cfg api username limit).returns =
          some ((api.submissions.take limit).map mkPost,
                (api.comments.take limit).map mkComment) := by
        simp [get_user_data, hc, hb, Result.returns]
      rw [hret] at hval
      exact congrArg Prod.fst (Option.some.inj hval)
    · rw [get_user_data_creds_missing cfg api username limit (by simpa using hc)] at h
      cases h
  · intro s
    refine ⟨rfl, rfl, rfl, fun hs => ?_, fun hs => ?_⟩
    · simp [mkPost, hs]
    · simp [mkPost, hs]

/-- Witness for C9: the concrete fetch, a self post keeping its body, and a
link-only post receiving the placeholder. -/
theorem C9_post_fields_witness :
    [mkPost subm1] = (apiOk.submissions.take 50).map mkPost ∧
    (mkPost subm2).id = subm2.id ∧
    (mkPost subm2).selftext = str "[Link Post]" ∧
    (mkPost subm1).selftext = subm1.selftext := by
  have h := C9_post_fields cfgFull apiOk (str "kojied") 50
    [mkPost subm1] [mkComment comm1]
    ((get_user_data cfgFull apiOk (str "kojied")).trace) (by decide) (by decide)
  exact ⟨h.1, (h.2 subm2).1, (h.2 subm2).2.2.2.2 (by decide),
    (h.2 subm1).2.2.2.1 (by decide)⟩

/-- C10: when the completion API succeeds but returns the empty string, the
run writes no file, prints the failure message, and `main` returns normally
so the interpreter exits with status 0. -/
theorem C10_empty_persona_graceful (w : World) (u : Str) (posts : List Post)
    (comments : List Comment) (t t2 : List Event)
    (hext : extract_username (strip w.url) = some u)
    (hget : get_user_data w.cfg w.api u = .ok (posts, comments) t)
    (hne : (posts.isEmpty && comments.isEmpty) = false)
    (hgen : generate_persona w.cfg w.llm posts comments = .ok [] t2) :
    (main w).returns = some () ∧
    (run w).1 = 0 ∧
    (∀ f c, Event.fileWrite f c ∉ (run w).2) ∧
    Event.print (str "Failed to generate persona.") ∈ (run w).2 := by
  have hrw : run w = (0, ([.print (str "--- Reddit User Persona Generator ---"),
      .print (str "Enter Reddit profile URL (e.g., https://www.reddit.com/user/kojied/): "),
      .print (str "\n--- Processing u/" ++ u ++ str " ---")] ++ t
      ++ [.print (str "\n--- Generating User Persona (This may take a moment) ---")] ++ t2
      ++ [.print (str "Failed to generate persona.")])) := by
    simp [run, main, hext, hget, hne, hgen]
  refine ⟨?_, ?_, ?_, ?_⟩
  · simp [main, hext, hget, hne, hgen, Result.returns]
  · rw [hrw]
  · intro f c hf
    rw [hrw] at hf
    simp only [] at hf
    rcases List.mem_append.mp hf with hf1 | hf1
    · rcases List.mem_append.mp hf1 with hf2 | hf2
      · rcases List.mem_append.mp hf2 with hf3 | hf3
        · rcases List.mem_append.mp hf3 with hf4 | hf4
          · simp at hf4
          · rcases get_user_data_trace_shape w.cfg w.api u 50 _
              (by rw [hget]; exact hf4) with ⟨s, hh⟩ | ⟨v, hh⟩ <;> cases hh
        · simp at hf3
      · rcases generate_persona_trace_shape w.cfg w.llm posts comments _
          (by rw [hgen]; exact hf2) with ⟨s, hh⟩ | ⟨p, hh⟩ <;> cases hh
    · simp at hf1
  · rw [hrw]
    simp

/-- Witness for C10: the concrete run whose completion API returns the
empty string exits 0 having written nothing and printed the failure
message. -/
theorem C10_empty_persona_graceful_witness :
    (main wEmptyPersona).returns = some () ∧
    (run wEmptyPersona).1 = 0 ∧
    Event.fileWrite (str "kojied_persona.txt") (str "") ∉ (run wEmptyPersona).2 ∧
    Event.print (str "Failed to generate persona.") ∈ (run wEmptyPersona).2 := by
  have h := C10_empty_persona_graceful wEmptyPersona (str "kojied")
    [mkPost subm1] [mkComment comm1]
    ((get_user_data cfgFull apiOk (str "kojied")).trace)
    ((generate_persona cfgFull wEmptyPersona.llm [mkPost subm1] [mkComment comm1]).trace)
    (by decide) (by decide) (by decide) rfl
  exact ⟨h.1, h.2.1, h.2.2.1 _ _, h.2.2.2⟩

end RedditPersona
